import Mathlib

/-!
# The y33t I2C watchdog (hw/watchdog/wdt_y33t.c)

A shallow embedding of the device model in `wdt_y33t.c`: the device
structure `Y33TState`, the file-scope cell `this_boot`, and the callbacks
`wdt_y33t_reset`, `y33t_timer_expired`, `wdt_y33t_event`, `wdt_y33t_recv`
and `wdt_y33t_send`, and the field list of `vmstate_y33t`.

Conventions.
* `uint8_t` values are natural numbers; a byte is a natural number below 256.
* Virtual-clock times are integers in nanoseconds; the clock is `int64_t`,
  so the sum computed by `wdt_y33t_send` is reduced to the signed 64-bit
  range by `wrap_int64`.
* The `QEMUTimer` owned by the device is represented by its deadline:
  `none` when the timer is not scheduled, `some t` when it is scheduled to
  fire at absolute time `t`.
* The side effects outside the device structure (the cell `this_boot` and
  the calls of `qemu_system_reset_request`) are made explicit in `Machine`.
-/

namespace Y33T

/-! ## Data model -/

/-- Register window size, `#define Y33T_MEM_SIZE 2`. -/
def Y33T_MEM_SIZE : Nat := 2

/-- The enumeration `y33t_boot_reason`. -/
inductive y33t_boot_reason where
  | Y33T_BOOT_CLEAN
  | Y33T_BOOT_NOPING
  | Y33T_BOOT_OVERHEAT
  | Y33T_BOOT_OTHER
  deriving DecidableEq

open y33t_boot_reason

/-- Numeric value of an enumerator of `y33t_boot_reason`. -/
def y33t_boot_reason.code : y33t_boot_reason → Nat
  | Y33T_BOOT_CLEAN => 0
  | Y33T_BOOT_NOPING => 1
  | Y33T_BOOT_OVERHEAT => 2
  | Y33T_BOOT_OTHER => 0xff

/-- The structure `Y33TState` without its `parent_obj`; `timer` holds the
deadline of the device's `QEMUTimer`, `none` when it is not scheduled. -/
structure Y33TState where
  addr_byte : Bool
  ptr : Nat
  timer : Option Int
  armed : Bool
  boot_reason : y33t_boot_reason
  deriving DecidableEq

/-- Modelled from the spec: the enumeration `i2c_event` of `hw/i2c/i2c.h`,
the kinds of bus event delivered to the `event` callback; the source names
only `I2C_START_SEND`. -/
inductive i2c_event where
  | I2C_START_RECV
  | I2C_START_SEND
  | I2C_FINISH
  | I2C_NACK
  deriving DecidableEq

open i2c_event

/-- Modelled from the spec: the causes accepted by
`qemu_system_reset_request` (`sysemu/runstate.h`); the source names only
`SHUTDOWN_CAUSE_GUEST_RESET`, the guest-initiated reset. -/
inductive ShutdownCause where
  | SHUTDOWN_CAUSE_NONE
  | SHUTDOWN_CAUSE_HOST_ERROR
  | SHUTDOWN_CAUSE_GUEST_SHUTDOWN
  | SHUTDOWN_CAUSE_GUEST_RESET
  | SHUTDOWN_CAUSE_GUEST_PANIC
  deriving DecidableEq

open ShutdownCause

/-- The device together with what its callbacks touch outside of it: the
file-scope cell `this_boot` and the system-reset requests issued so far
(most recent first). -/
structure Machine where
  dev : Y33TState
  this_boot : y33t_boot_reason
  reset_requests : List ShutdownCause
  deriving DecidableEq

/-! ## Collaborators -/

/-- Modelled from the spec: `NANOSECONDS_PER_SECOND` of `qemu/timer.h`,
the number of clock units in one second of the nanosecond virtual clock. -/
def NANOSECONDS_PER_SECOND : Int := 1000000000

/-- Reduction of an integer to the range of `int64_t` (two's complement). -/
def wrap_int64 (x : Int) : Int := (x + 2 ^ 63) % 2 ^ 64 - 2 ^ 63

/-- Modelled from the spec: `timer_del` of `qemu/timer.h`, cancel(handle):
the timer is no longer scheduled. -/
def timer_del (_timer : Option Int) : Option Int := none

/-- Modelled from the spec: `timer_mod` of `qemu/timer.h`,
scheduleAt(absoluteTime): whatever the timer held before, it is now
scheduled once, at `expire_time`. -/
def timer_mod (_timer : Option Int) (expire_time : Int) : Option Int := some expire_time

/-- Modelled from the spec: `qemu_system_reset_request` of
`sysemu/runstate.h`, requestSystemReset(cause): the request is recorded, the
device is re-initialised later through its reset entry point. -/
def qemu_system_reset_request (m : Machine) (cause : ShutdownCause) : Machine :=
  { m with reset_requests := cause :: m.reset_requests }

/-! ## The callbacks -/

/-- The function `wdt_y33t_reset`. -/
def wdt_y33t_reset (m : Machine) : Machine :=
  let y33t := m.dev
  let y33t := { y33t with addr_byte := false }
  let y33t := { y33t with ptr := 0 }
  let y33t := { y33t with timer := timer_del y33t.timer }
  let y33t := { y33t with armed := false }
  let y33t := { y33t with boot_reason := m.this_boot }
  { m with dev := y33t, this_boot := Y33T_BOOT_CLEAN }

/-- The function `y33t_timer_expired`. -/
def y33t_timer_expired (m : Machine) : Machine :=
  if m.dev.armed then
    qemu_system_reset_request { m with this_boot := Y33T_BOOT_NOPING } SHUTDOWN_CAUSE_GUEST_RESET
  else
    m

/-- The function `wdt_y33t_event`: the device afterwards and the returned
status. -/
def wdt_y33t_event (y33t : Y33TState) (event : i2c_event) : Y33TState × Int :=
  let y33t := if event = I2C_START_SEND then { y33t with addr_byte := true } else y33t
  (y33t, 0)

/-- The function `wdt_y33t_recv`: the device afterwards and the byte
returned. -/
def wdt_y33t_recv (y33t : Y33TState) : Y33TState × Nat :=
  let res : Nat :=
    match y33t.ptr with
    | 0 => if y33t.armed then 1 else 0
    | 1 => y33t.boot_reason.code % 256
    | _ => 0xff
  ({ y33t with ptr := (y33t.ptr + 1) % Y33T_MEM_SIZE }, res)

/-- The function `wdt_y33t_send`: the device afterwards and the returned
status; `now` is the value of `qemu_clock_get_ns(QEMU_CLOCK_VIRTUAL)` at the
call. -/
def wdt_y33t_send (y33t : Y33TState) (now : Int) (data : Nat) : Y33TState × Int :=
  if y33t.addr_byte then
    let y33t := { y33t with ptr := if data < Y33T_MEM_SIZE then data else 0 }
    let y33t := { y33t with addr_byte := false }
    (y33t, 0)
  else
    let y33t :=
      if y33t.ptr = 0 then
        match data with
        | 13 =>
          let y33t := { y33t with armed := true }
          { y33t with timer := timer_mod y33t.timer (wrap_int64 (now + 3 * NANOSECONDS_PER_SECOND)) }
        | _ => y33t
      else y33t
    (y33t, 0)

/-! ## The host driving the device -/

/-- Modelled from the spec: the timer collaborator delivering a deadline.
A deadline that is scheduled and has been reached at time `now` is taken off
the schedule and the expiry callback runs; a timer that is not scheduled, or
whose deadline lies ahead, never invokes the callback. -/
def timer_fire (m : Machine) (now : Int) : Machine :=
  match m.dev.timer with
  | some t => if t ≤ now then y33t_timer_expired { m with dev := { m.dev with timer := none } } else m
  | none => m

/-- A call made by the bus transport: the three callbacks registered in
`wdt_y33t_class_init`. -/
inductive BusOp where
  | event (e : i2c_event)
  | send (now : Int) (data : Nat)
  | recv
  deriving DecidableEq

/-- Anything the host can do to the device: a bus call, a run of the expiry
callback, the delivery of the scheduled deadline by the timer facility, or a
device reset. -/
inductive Op where
  | bus (b : BusOp)
  | expired
  | fire (now : Int)
  | reset
  deriving DecidableEq

/-- One bus call on the device. -/
def busStep (y33t : Y33TState) : BusOp → Y33TState
  | .event e => (wdt_y33t_event y33t e).1
  | .send now data => (wdt_y33t_send y33t now data).1
  | .recv => (wdt_y33t_recv y33t).1

/-- One host action on the machine. -/
def step (m : Machine) : Op → Machine
  | .bus b => { m with dev := busStep m.dev b }
  | .expired => y33t_timer_expired m
  | .fire now => timer_fire m now
  | .reset => wdt_y33t_reset m

/-- A sequence of bus calls, in order. -/
def busRun (m : Machine) (bs : List BusOp) : Machine :=
  bs.foldl (fun m b => step m (.bus b)) m

/-- A sequence of host actions, in order. -/
def run (m : Machine) (ops : List Op) : Machine :=
  ops.foldl step m

/-- The byte a read-byte would return on the machine as it stands. -/
def readByte (m : Machine) : Nat :=
  (wdt_y33t_recv m.dev).2

/-- The bus start-of-write, as a host action. -/
def START_SEND : Op := .bus (.event I2C_START_SEND)

/-- A write-byte at clock value `now`, as a host action. -/
def WRITE (now : Int) (data : Nat) : Op := .bus (.send now data)

/-- A read-byte, as a host action. -/
def READ : Op := .bus .recv

/-- Timeout scenario, first leg: device reset, then pointer 0 is addressed. -/
def scenarioFresh (t : Nat → Int) : List Op :=
  [.reset, START_SEND, WRITE (t 0) 0]

/-- Timeout scenario, second leg: the read of pointer 0 is taken, pointer 0
is addressed again and 13 is written. -/
def scenarioArmed (t : Nat → Int) : List Op :=
  scenarioFresh t ++ [READ, START_SEND, WRITE (t 1) 0, WRITE (t 2) 13]

/-- Timeout scenario, third leg: pointer 0 is addressed for the second
read. -/
def scenarioPolled (t : Nat → Int) : List Op :=
  scenarioArmed t ++ [START_SEND, WRITE (t 3) 0]

/-- Timeout scenario, fourth leg: the second read is taken and the expiry
callback runs, no 13 having been written since. -/
def scenarioExpired (t : Nat → Int) : List Op :=
  scenarioPolled t ++ [READ, .expired]

/-- Timeout scenario, last leg: the device reset that follows, then pointer 1
is addressed. -/
def scenarioRebooted (t : Nat → Int) : List Op :=
  scenarioExpired t ++ [.reset, START_SEND, WRITE (t 4) 1]

/-! ## Save and restore -/

/-- The storage the device model works on: the five state members of
`Y33TState` and the file-scope cell `this_boot`. -/
inductive StateCell where
  | addr_byte
  | ptr
  | timer
  | armed
  | boot_reason
  | this_boot
  deriving DecidableEq

/-- The field list of the description `vmstate_y33t`: `VMSTATE_BOOL(addr_byte)`,
`VMSTATE_UINT8(ptr)`, `VMSTATE_TIMER_PTR(timer)`, `VMSTATE_BOOL(armed)`. -/
def vmstate_y33t : List StateCell :=
  [.addr_byte, .ptr, .timer, .armed]

/-- Modelled from the spec: the persistence collaborator restoring one
declared field, which takes the saved value. -/
def vmstate_load_field (saved : Machine) (m : Machine) : StateCell → Machine
  | .addr_byte => { m with dev := { m.dev with addr_byte := saved.dev.addr_byte } }
  | .ptr => { m with dev := { m.dev with ptr := saved.dev.ptr } }
  | .timer => { m with dev := { m.dev with timer := saved.dev.timer } }
  | .armed => { m with dev := { m.dev with armed := saved.dev.armed } }
  | .boot_reason => { m with dev := { m.dev with boot_reason := saved.dev.boot_reason } }
  | .this_boot => { m with this_boot := saved.this_boot }

/-- Modelled from the spec: external save and restore. The fields declared
in `fields` are carried from the saved machine into the receiving one; what is
not declared keeps the value the receiving machine has. -/
def vmstate_restore (fields : List StateCell) (saved target : Machine) : Machine :=
  fields.foldl (vmstate_load_field saved) target

/-! ## Ghost history -/

/-- Whether the machine is between a delivered deadline and the next device
reset or arming write, after the host action `op` taken in state `s`; `w` is
the answer before the action. -/
def nextExpiredWindow (s : Machine) (w : Bool) : Op → Bool
  | .reset => false
  | .fire now =>
    match s.dev.timer with
    | some t => if t ≤ now then true else w
    | none => w
  | .bus (.send _ data) =>
    if s.dev.addr_byte = false ∧ s.dev.ptr = 0 ∧ data = 13 then false else w
  | _ => w

/-- Whether, after the host actions `ops` from state `s`, a deadline has been
delivered with neither a device reset nor an arming write since; `w` is the
answer in state `s`. -/
def expiredWindow (s : Machine) (w : Bool) : List Op → Bool
  | [] => w
  | op :: ops => expiredWindow (step s op) (nextExpiredWindow s w op) ops

/-- The failing input of the save and restore: a device that came up after a
watchdog reset, its boot reason readable at pointer 1. -/
def savedAfterWatchdogReset : Machine :=
  ⟨⟨false, 1, none, false, Y33T_BOOT_NOPING⟩, Y33T_BOOT_CLEAN, []⟩

/-- The receiving side of the restore: a device that has just been reset with
`this_boot` clean. -/
def freshTarget : Machine :=
  wdt_y33t_reset ⟨⟨false, 0, none, false, Y33T_BOOT_CLEAN⟩, Y33T_BOOT_CLEAN, []⟩

/-! ## Frame lemmas -/

theorem send_addressing_eq (y33t : Y33TState) (now : Int) (data : Nat)
    (haddr : y33t.addr_byte = true) :
    (wdt_y33t_send y33t now data).1 =
      { y33t with ptr := if data < 2 then data else 0, addr_byte := false } := by
  simp [wdt_y33t_send, haddr, Y33T_MEM_SIZE]

theorem send_command_eq (y33t : Y33TState) (now : Int)
    (haddr : y33t.addr_byte = false) (hptr : y33t.ptr = 0) :
    (wdt_y33t_send y33t now 13).1 =
      { y33t with armed := true, timer := some (wrap_int64 (now + 3 * NANOSECONDS_PER_SECOND)) } := by
  simp [wdt_y33t_send, haddr, hptr, timer_mod]

theorem send_no_command_eq (y33t : Y33TState) (now : Int) (data : Nat)
    (haddr : y33t.addr_byte = false) (h : y33t.ptr ≠ 0 ∨ data ≠ 13) :
    (wdt_y33t_send y33t now data).1 = y33t := by
  by_cases hp : y33t.ptr = 0
  · have hd : data ≠ 13 := by
      rcases h with h | h
      · exact absurd hp h
      · exact h
    simp [wdt_y33t_send, haddr, hp]
  · simp [wdt_y33t_send, haddr, hp]

theorem busStep_ptr_lt (y33t : Y33TState) (b : BusOp) (h : y33t.ptr < 2) :
    (busStep y33t b).ptr < 2 := by
  cases b with
  | event e =>
    simp only [busStep, wdt_y33t_event]
    split <;> simpa using h
  | send now data =>
    simp only [busStep]
    cases haddr : y33t.addr_byte
    · by_cases hc : y33t.ptr = 0 ∧ data = 13
      · obtain ⟨hp, hd⟩ := hc
        subst hd
        rw [send_command_eq y33t now haddr hp]
        exact h
      · rw [send_no_command_eq y33t now data haddr (by omega)]
        exact h
    · rw [send_addressing_eq y33t now data haddr]
      simp only
      split <;> omega
  | recv =>
    simp only [busStep, wdt_y33t_recv, Y33T_MEM_SIZE]
    exact Nat.mod_lt _ (by decide)

theorem busRun_this_boot (m : Machine) (bs : List BusOp) :
    (busRun m bs).this_boot = m.this_boot := by
  induction bs generalizing m with
  | nil => rfl
  | cons b bs ih =>
    have h := ih (step m (.bus b))
    simpa [busRun, step] using h

theorem busRun_reset_requests (m : Machine) (bs : List BusOp) :
    (busRun m bs).reset_requests = m.reset_requests := by
  induction bs generalizing m with
  | nil => rfl
  | cons b bs ih =>
    have h := ih (step m (.bus b))
    simpa [busRun, step] using h

theorem step_ptr_lt (m : Machine) (op : Op) (h : m.dev.ptr < 2) :
    (step m op).dev.ptr < 2 := by
  cases op with
  | bus b => exact busStep_ptr_lt m.dev b h
  | expired =>
    simp only [step, y33t_timer_expired, qemu_system_reset_request]
    split <;> exact h
  | fire now =>
    simp only [step, timer_fire, y33t_timer_expired, qemu_system_reset_request]
    split
    · split
      · split <;> exact h
      · exact h
    · exact h
  | reset => simp [step, wdt_y33t_reset]

theorem run_ptr_lt (m : Machine) (ops : List Op) (h : m.dev.ptr < 2) :
    (run m ops).dev.ptr < 2 := by
  induction ops generalizing m with
  | nil => exact h
  | cons op ops ih => exact ih (step m op) (step_ptr_lt m op h)

theorem run_append_singleton (m : Machine) (ops : List Op) (op : Op) :
    run m (ops ++ [op]) = step (run m ops) op := by
  simp [run, List.foldl_append]

theorem step_this_boot_cases (s : Machine) (op : Op) :
    (op ≠ .reset ∧ (step s op).this_boot = s.this_boot) ∨
    (step s op).this_boot = Y33T_BOOT_CLEAN ∨
    ((op = .expired ∨ ∃ now, op = .fire now) ∧
      (step s op).this_boot = Y33T_BOOT_NOPING ∧
      (step s op).reset_requests = SHUTDOWN_CAUSE_GUEST_RESET :: s.reset_requests) := by
  cases op with
  | bus b => exact Or.inl ⟨by simp, rfl⟩
  | expired =>
    cases harm : s.dev.armed
    · exact Or.inl ⟨by simp, by simp [step, y33t_timer_expired, harm]⟩
    · exact Or.inr (Or.inr ⟨Or.inl rfl,
        by simp [step, y33t_timer_expired, harm, qemu_system_reset_request],
        by simp [step, y33t_timer_expired, harm, qemu_system_reset_request]⟩)
  | fire now =>
    cases htm : s.dev.timer with
    | none => exact Or.inl ⟨by simp, by simp [step, timer_fire, htm]⟩
    | some d =>
      by_cases hd : d ≤ now
      · cases harm : s.dev.armed
        · exact Or.inl ⟨by simp, by simp [step, timer_fire, htm, hd, y33t_timer_expired, harm]⟩
        · exact Or.inr (Or.inr ⟨Or.inr ⟨now, rfl⟩,
            by simp [step, timer_fire, htm, hd, y33t_timer_expired, harm,
              qemu_system_reset_request],
            by simp [step, timer_fire, htm, hd, y33t_timer_expired, harm,
              qemu_system_reset_request]⟩)
      · exact Or.inl ⟨by simp, by simp [step, timer_fire, htm, hd]⟩
  | reset => exact Or.inr (Or.inl (by simp [step, wdt_y33t_reset]))

/-- The invariant behind the armed flag: outside the window left open by a
delivered deadline `armed` and the schedule agree, inside it the device is
armed with nothing scheduled. -/
theorem step_armed_timer (s : Machine) (w : Bool) (op : Op)
    (h1 : w = false → (s.dev.armed = true ↔ s.dev.timer.isSome = true))
    (h2 : w = true → s.dev.armed = true ∧ s.dev.timer = none) :
    (nextExpiredWindow s w op = false →
      ((step s op).dev.armed = true ↔ (step s op).dev.timer.isSome = true)) ∧
    (nextExpiredWindow s w op = true →
      (step s op).dev.armed = true ∧ (step s op).dev.timer = none) := by
  cases op with
  | bus b =>
    cases b with
    | event e =>
      have h : (step s (.bus (.event e))).dev.armed = s.dev.armed ∧
          (step s (.bus (.event e))).dev.timer = s.dev.timer := by
        simp only [step, busStep, wdt_y33t_event]
        split <;> exact ⟨rfl, rfl⟩
      rw [h.1, h.2]
      exact ⟨h1, h2⟩
    | send now data =>
      simp only [step, busStep]
      cases haddr : s.dev.addr_byte
      · by_cases hc : s.dev.ptr = 0 ∧ data = 13
        · obtain ⟨hp, hd⟩ := hc
          subst hd
          rw [send_command_eq s.dev now haddr hp]
          simp [nextExpiredWindow, haddr, hp]
        · have hw : nextExpiredWindow s w (.bus (.send now data)) = w := by
            simp only [nextExpiredWindow, haddr, true_and]
            rw [if_neg hc]
          rw [send_no_command_eq s.dev now data haddr (by omega), hw]
          exact ⟨h1, h2⟩
      · have hw : nextExpiredWindow s w (.bus (.send now data)) = w := by
          simp [nextExpiredWindow, haddr]
        rw [send_addressing_eq s.dev now data haddr, hw]
        exact ⟨h1, h2⟩
    | recv => exact ⟨h1, h2⟩
  | expired =>
    have h : (step s .expired).dev = s.dev := by
      simp only [step, y33t_timer_expired, qemu_system_reset_request]
      split <;> rfl
    rw [h]
    exact ⟨h1, h2⟩
  | fire now =>
    cases htm : s.dev.timer with
    | none =>
      have h : step s (.fire now) = s := by simp [step, timer_fire, htm]
      have hw : nextExpiredWindow s w (.fire now) = w := by simp [nextExpiredWindow, htm]
      rw [h, hw]
      exact ⟨h1, h2⟩
    | some d =>
      by_cases hd : d ≤ now
      · have harm : s.dev.armed = true := by
          cases w
          · exact (h1 rfl).2 (by simp [htm])
          · exact (h2 rfl).1
        have h : (step s (.fire now)).dev = { s.dev with timer := none } := by
          simp [step, timer_fire, htm, hd, y33t_timer_expired, harm, qemu_system_reset_request]
        have hw : nextExpiredWindow s w (.fire now) = true := by
          simp [nextExpiredWindow, htm, hd]
        rw [h, hw]
        simp [harm]
      · have h : step s (.fire now) = s := by simp [step, timer_fire, htm, hd]
        have hw : nextExpiredWindow s w (.fire now) = w := by
          simp [nextExpiredWindow, htm, hd]
        rw [h, hw]
        exact ⟨h1, h2⟩
  | reset => simp [step, wdt_y33t_reset, timer_del, nextExpiredWindow]

theorem run_armed_timer (s : Machine) (w : Bool) (ops : List Op)
    (h1 : w = false → (s.dev.armed = true ↔ s.dev.timer.isSome = true))
    (h2 : w = true → s.dev.armed = true ∧ s.dev.timer = none) :
    (expiredWindow s w ops = false →
      ((run s ops).dev.armed = true ↔ (run s ops).dev.timer.isSome = true)) ∧
    (expiredWindow s w ops = true →
      (run s ops).dev.armed = true ∧ (run s ops).dev.timer = none) := by
  induction ops generalizing s w with
  | nil => exact ⟨h1, h2⟩
  | cons op ops ih =>
    have hs := step_armed_timer s w op h1 h2
    exact ih (step s op) (nextExpiredWindow s w op) hs.1 hs.2

/-- No callback stores the reason `Y33T_BOOT_OTHER`. -/
theorem step_not_other (s : Machine) (op : Op)
    (h1 : s.this_boot ≠ Y33T_BOOT_OTHER) (h2 : s.dev.boot_reason ≠ Y33T_BOOT_OTHER) :
    (step s op).this_boot ≠ Y33T_BOOT_OTHER ∧ (step s op).dev.boot_reason ≠ Y33T_BOOT_OTHER := by
  cases op with
  | bus b =>
    refine ⟨h1, ?_⟩
    cases b with
    | event e =>
      simp only [step, busStep, wdt_y33t_event]
      split <;> exact h2
    | send now data =>
      simp only [step, busStep]
      cases haddr : s.dev.addr_byte
      · by_cases hc : s.dev.ptr = 0 ∧ data = 13
        · obtain ⟨hp, hd⟩ := hc
          subst hd
          rw [send_command_eq s.dev now haddr hp]
          exact h2
        · rw [send_no_command_eq s.dev now data haddr (by omega)]
          exact h2
      · rw [send_addressing_eq s.dev now data haddr]
        exact h2
    | recv => exact h2
  | expired =>
    simp only [step, y33t_timer_expired, qemu_system_reset_request]
    split
    · exact ⟨by simp, h2⟩
    · exact ⟨h1, h2⟩
  | fire now =>
    simp only [step, timer_fire, y33t_timer_expired, qemu_system_reset_request]
    split
    · split
      · split
        · exact ⟨by simp, h2⟩
        · exact ⟨h1, h2⟩
      · exact ⟨h1, h2⟩
    · exact ⟨h1, h2⟩
  | reset => exact ⟨by simp [step, wdt_y33t_reset], by simpa [step, wdt_y33t_reset] using h1⟩

theorem run_not_other (s : Machine) (ops : List Op)
    (h1 : s.this_boot ≠ Y33T_BOOT_OTHER) (h2 : s.dev.boot_reason ≠ Y33T_BOOT_OTHER) :
    (run s ops).this_boot ≠ Y33T_BOOT_OTHER ∧ (run s ops).dev.boot_reason ≠ Y33T_BOOT_OTHER := by
  induction ops generalizing s with
  | nil => exact ⟨h1, h2⟩
  | cons op ops ih =>
    have hs := step_not_other s op h1 h2
    exact ih (step s op) hs.1 hs.2

/-! ## The callbacks one by one -/

/-- Counterexample to C2: at the last value of the `int64_t` clock the sum
with three seconds wraps, and the deadline scheduled by the write of 13 lies
in the past instead of three seconds ahead. -/
theorem wdt_y33t_send_deadline_wraps :
    (wdt_y33t_send ⟨false, 0, none, false, Y33T_BOOT_CLEAN⟩ (2 ^ 63 - 1) 13).1.timer
      = some (-9223372033854775809) ∧
    (wdt_y33t_send ⟨false, 0, none, false, Y33T_BOOT_CLEAN⟩ (2 ^ 63 - 1) 13).1.timer
      ≠ some (2 ^ 63 - 1 + 3 * 10 ^ 9) := by
  decide

/-- Claim C2, as amended. In the data phase with `ptr = 0`, `wdt_y33t_send`
with data 13 sets `armed` and leaves the timer scheduled once, at
`now + 3 * 10^9`, for every earlier value of `armed` and of the deadline and
for every `int64_t` clock value `now` whose sum with three seconds does not
exceed `2^63 - 1`; `ptr`, `addr_byte` and `boot_reason` keep their values. -/
theorem wdt_y33t_send_arm (y33t : Y33TState) (now : Int)
    (haddr : y33t.addr_byte = false) (hptr : y33t.ptr = 0)
    (hlo : -2 ^ 63 ≤ now) (hhi : now + 3 * 10 ^ 9 < 2 ^ 63) :
    (wdt_y33t_send y33t now 13).1.armed = true ∧
    (wdt_y33t_send y33t now 13).1.timer = some (now + 3 * 10 ^ 9) ∧
    (wdt_y33t_send y33t now 13).1.ptr = y33t.ptr ∧
    (wdt_y33t_send y33t now 13).1.addr_byte = y33t.addr_byte ∧
    (wdt_y33t_send y33t now 13).1.boot_reason = y33t.boot_reason := by
  have hw : wrap_int64 (now + 3 * NANOSECONDS_PER_SECOND) = now + 3 * 10 ^ 9 := by
    unfold wrap_int64 NANOSECONDS_PER_SECOND
    omega
  rw [send_command_eq y33t now haddr hptr, hw]
  exact ⟨rfl, rfl, rfl, rfl, rfl⟩

/-- Witness of C2 as amended: an armed device with an earlier deadline of 5 is
re-armed at time 100. -/
theorem wdt_y33t_send_arm_witness :
    (wdt_y33t_send ⟨false, 0, some 5, true, Y33T_BOOT_OTHER⟩ 100 13).1.armed = true ∧
    (wdt_y33t_send ⟨false, 0, some 5, true, Y33T_BOOT_OTHER⟩ 100 13).1.timer
      = some (100 + 3 * 10 ^ 9) ∧
    (wdt_y33t_send ⟨false, 0, some 5, true, Y33T_BOOT_OTHER⟩ 100 13).1.ptr = 0 ∧
    (wdt_y33t_send ⟨false, 0, some 5, true, Y33T_BOOT_OTHER⟩ 100 13).1.addr_byte = false ∧
    (wdt_y33t_send ⟨false, 0, some 5, true, Y33T_BOOT_OTHER⟩ 100 13).1.boot_reason
      = Y33T_BOOT_OTHER :=
  wdt_y33t_send_arm ⟨false, 0, some 5, true, Y33T_BOOT_OTHER⟩ 100 rfl rfl (by decide) (by decide)

/-- Claim C3. With `armed` set, `y33t_timer_expired` stores `Y33T_BOOT_NOPING`
in `this_boot` and issues exactly one reset request, with cause
`SHUTDOWN_CAUSE_GUEST_RESET`, the device itself untouched; with `armed` clear
it changes nothing at all. -/
theorem y33t_timer_expired_spec (m : Machine) :
    (m.dev.armed = true →
      (y33t_timer_expired m).this_boot = Y33T_BOOT_NOPING ∧
      (y33t_timer_expired m).reset_requests = SHUTDOWN_CAUSE_GUEST_RESET :: m.reset_requests ∧
      (y33t_timer_expired m).dev = m.dev) ∧
    (m.dev.armed = false → y33t_timer_expired m = m) := by
  constructor
  · intro h
    simp [y33t_timer_expired, h, qemu_system_reset_request]
  · intro h
    simp [y33t_timer_expired, h]

/-- Witness of C3 on an armed device. -/
theorem y33t_timer_expired_spec_witness :
    (y33t_timer_expired ⟨⟨false, 1, none, true, Y33T_BOOT_CLEAN⟩, Y33T_BOOT_CLEAN, []⟩).this_boot
      = Y33T_BOOT_NOPING ∧
    (y33t_timer_expired ⟨⟨false, 1, none, true, Y33T_BOOT_CLEAN⟩, Y33T_BOOT_CLEAN, []⟩).reset_requests
      = [SHUTDOWN_CAUSE_GUEST_RESET] ∧
    (y33t_timer_expired ⟨⟨false, 1, none, true, Y33T_BOOT_CLEAN⟩, Y33T_BOOT_CLEAN, []⟩).dev
      = ⟨false, 1, none, true, Y33T_BOOT_CLEAN⟩ :=
  (y33t_timer_expired_spec ⟨⟨false, 1, none, true, Y33T_BOOT_CLEAN⟩, Y33T_BOOT_CLEAN, []⟩).1 rfl

/-- Claim C4. After `wdt_y33t_reset`, `addr_byte` is false, `ptr` is 0,
`armed` is false, the timer is not scheduled, `boot_reason` is the value
`this_boot` had before the call, and `this_boot` is `Y33T_BOOT_CLEAN`; no
reset request is issued. -/
theorem wdt_y33t_reset_post (m : Machine) :
    (wdt_y33t_reset m).dev.addr_byte = false ∧
    (wdt_y33t_reset m).dev.ptr = 0 ∧
    (wdt_y33t_reset m).dev.armed = false ∧
    (wdt_y33t_reset m).dev.timer = none ∧
    (wdt_y33t_reset m).dev.boot_reason = m.this_boot ∧
    (wdt_y33t_reset m).this_boot = Y33T_BOOT_CLEAN ∧
    (wdt_y33t_reset m).reset_requests = m.reset_requests := by
  simp [wdt_y33t_reset, timer_del]

/-- Claim C7. The byte returned by `wdt_y33t_recv` is 1 at `ptr = 0` when
armed and 0 when not, the code of `boot_reason` at `ptr = 1` (0 for clean, 1
for no-ping, 2 for overheat, 0xFF for other) and 0xFF at any other `ptr`;
afterwards `ptr` is the old `ptr` plus one modulo 2, and `addr_byte`, `armed`,
the deadline, `boot_reason` and `this_boot` are as before. -/
theorem wdt_y33t_recv_spec (y33t : Y33TState) :
    (y33t.ptr = 0 → y33t.armed = true → (wdt_y33t_recv y33t).2 = 1) ∧
    (y33t.ptr = 0 → y33t.armed = false → (wdt_y33t_recv y33t).2 = 0) ∧
    (y33t.ptr = 1 → y33t.boot_reason = Y33T_BOOT_CLEAN → (wdt_y33t_recv y33t).2 = 0) ∧
    (y33t.ptr = 1 → y33t.boot_reason = Y33T_BOOT_NOPING → (wdt_y33t_recv y33t).2 = 1) ∧
    (y33t.ptr = 1 → y33t.boot_reason = Y33T_BOOT_OVERHEAT → (wdt_y33t_recv y33t).2 = 2) ∧
    (y33t.ptr = 1 → y33t.boot_reason = Y33T_BOOT_OTHER → (wdt_y33t_recv y33t).2 = 0xff) ∧
    (y33t.ptr ≠ 0 → y33t.ptr ≠ 1 → (wdt_y33t_recv y33t).2 = 0xff) ∧
    (wdt_y33t_recv y33t).1.ptr = (y33t.ptr + 1) % 2 ∧
    (wdt_y33t_recv y33t).1.addr_byte = y33t.addr_byte ∧
    (wdt_y33t_recv y33t).1.armed = y33t.armed ∧
    (wdt_y33t_recv y33t).1.timer = y33t.timer ∧
    (wdt_y33t_recv y33t).1.boot_reason = y33t.boot_reason ∧
    (∀ (this_boot : y33t_boot_reason) (reqs : List ShutdownCause),
      (step ⟨y33t, this_boot, reqs⟩ READ).this_boot = this_boot) := by
  obtain ⟨a, p, t, ar, br⟩ := y33t
  refine ⟨?_, ?_, ?_, ?_, ?_, ?_, ?_, ?_, ?_, ?_, ?_, ?_, ?_⟩
  · intro hp har
    simp only at hp har
    subst hp har
    rfl
  · intro hp har
    simp only at hp har
    subst hp har
    rfl
  · intro hp hb
    simp only at hp hb
    subst hp hb
    rfl
  · intro hp hb
    simp only at hp hb
    subst hp hb
    rfl
  · intro hp hb
    simp only at hp hb
    subst hp hb
    rfl
  · intro hp hb
    simp only at hp hb
    subst hp hb
    rfl
  · intro h0 h1
    simp only at h0 h1
    match p, h0, h1 with
    | 0, h0, _ => exact absurd rfl h0
    | 1, _, h1 => exact absurd rfl h1
    | _ + 2, _, _ => rfl
  · rfl
  · rfl
  · rfl
  · rfl
  · rfl
  · intro tb reqs
    rfl

/-- Witness of C7: an armed device read at `ptr = 0`. -/
theorem wdt_y33t_recv_spec_witness :
    (wdt_y33t_recv ⟨false, 0, some 7, true, Y33T_BOOT_OVERHEAT⟩).2 = 1 :=
  (wdt_y33t_recv_spec ⟨false, 0, some 7, true, Y33T_BOOT_OVERHEAT⟩).1 rfl rfl

/-- Claim C8. In the addressing phase `wdt_y33t_send` sets `ptr` to the byte
when it is below 2 and to 0 otherwise and clears `addr_byte`; the byte is not
taken as a command, 13 included: `armed`, the deadline, `boot_reason` and
`this_boot` are as before. -/
theorem wdt_y33t_send_addr (y33t : Y33TState) (now : Int) (data : Nat)
    (haddr : y33t.addr_byte = true) :
    (wdt_y33t_send y33t now data).1.ptr = (if data < 2 then data else 0) ∧
    (wdt_y33t_send y33t now data).1.addr_byte = false ∧
    (wdt_y33t_send y33t now data).1.armed = y33t.armed ∧
    (wdt_y33t_send y33t now data).1.timer = y33t.timer ∧
    (wdt_y33t_send y33t now data).1.boot_reason = y33t.boot_reason ∧
    (∀ (this_boot : y33t_boot_reason) (reqs : List ShutdownCause),
      (step ⟨y33t, this_boot, reqs⟩ (WRITE now data)).this_boot = this_boot) ∧
    (wdt_y33t_send y33t now 13).1 = { y33t with ptr := 0, addr_byte := false } := by
  rw [send_addressing_eq y33t now data haddr, send_addressing_eq y33t now 13 haddr]
  refine ⟨rfl, rfl, rfl, rfl, rfl, ?_, ?_⟩
  · intro tb reqs
    rfl
  · simp

/-- Witness of C8: the byte 13 sent as an address to an unarmed device. -/
theorem wdt_y33t_send_addr_witness :
    (wdt_y33t_send ⟨true, 1, none, false, Y33T_BOOT_CLEAN⟩ 42 13).1.ptr = 0 ∧
    (wdt_y33t_send ⟨true, 1, none, false, Y33T_BOOT_CLEAN⟩ 42 13).1.addr_byte = false ∧
    (wdt_y33t_send ⟨true, 1, none, false, Y33T_BOOT_CLEAN⟩ 42 13).1.armed = false ∧
    (wdt_y33t_send ⟨true, 1, none, false, Y33T_BOOT_CLEAN⟩ 42 13).1.timer = none :=
  have h := wdt_y33t_send_addr ⟨true, 1, none, false, Y33T_BOOT_CLEAN⟩ 42 13 rfl
  ⟨h.1, h.2.1, h.2.2.1, h.2.2.2.1⟩

/-- Claim C10. In the data phase a byte written at `ptr ≠ 0`, or a byte
other than 13, leaves the whole state as it was: `addr_byte`, `ptr`, `armed`,
the deadline, `boot_reason`, `this_boot` and the reset requests. -/
theorem wdt_y33t_send_ignored (m : Machine) (now : Int) (data : Nat)
    (haddr : m.dev.addr_byte = false) (h : m.dev.ptr ≠ 0 ∨ data ≠ 13) :
    (wdt_y33t_send m.dev now data).1 = m.dev ∧ step m (WRITE now data) = m := by
  have hd := send_no_command_eq m.dev now data haddr h
  refine ⟨hd, ?_⟩
  simp only [step, WRITE, busStep, hd]

/-- Witness of C10: the byte 13 written at `ptr = 1` of an unarmed device. -/
theorem wdt_y33t_send_ignored_witness :
    (wdt_y33t_send ⟨false, 1, none, false, Y33T_BOOT_NOPING⟩ 9 13).1
      = ⟨false, 1, none, false, Y33T_BOOT_NOPING⟩ ∧
    step ⟨⟨false, 1, none, false, Y33T_BOOT_NOPING⟩, Y33T_BOOT_CLEAN, []⟩ (WRITE 9 13)
      = ⟨⟨false, 1, none, false, Y33T_BOOT_NOPING⟩, Y33T_BOOT_CLEAN, []⟩ :=
  wdt_y33t_send_ignored ⟨⟨false, 1, none, false, Y33T_BOOT_NOPING⟩, Y33T_BOOT_CLEAN, []⟩ 9 13
    rfl (Or.inl (by decide))

/-! ## Sequences of calls -/

/-- Claim C1. The timeout scenario, from any machine and at any clock values:
after reset the read of pointer 0 gives 0; once 13 is written to pointer 0 the
device is armed and the read of pointer 0 gives 1; when the expiry callback
then runs, one reset request has been issued in all, with the guest-reset
cause, and `this_boot` holds the no-ping reason; after the reset that follows
the read of pointer 1 gives 1. -/
theorem watchdog_timeout_scenario (m : Machine) (t : Nat → Int) :
    readByte (run m (scenarioFresh t)) = 0 ∧
    (run m (scenarioArmed t)).dev.armed = true ∧
    readByte (run m (scenarioPolled t)) = 1 ∧
    (run m (scenarioPolled t)).reset_requests = m.reset_requests ∧
    (run m (scenarioExpired t)).reset_requests
      = SHUTDOWN_CAUSE_GUEST_RESET :: m.reset_requests ∧
    (run m (scenarioExpired t)).this_boot = Y33T_BOOT_NOPING ∧
    (run m (scenarioRebooted t)).dev.boot_reason = Y33T_BOOT_NOPING ∧
    readByte (run m (scenarioRebooted t)) = 1 ∧
    (run m (scenarioRebooted t)).reset_requests
      = SHUTDOWN_CAUSE_GUEST_RESET :: m.reset_requests := by
  simp [readByte, run, scenarioFresh, scenarioArmed, scenarioPolled, scenarioExpired,
    scenarioRebooted, START_SEND, WRITE, READ, step, busStep, wdt_y33t_reset, wdt_y33t_event,
    wdt_y33t_send, wdt_y33t_recv, y33t_timer_expired, qemu_system_reset_request, timer_del,
    timer_mod, Y33T_MEM_SIZE, y33t_boot_reason.code]

/-- Claim C5. Of two device resets with only bus events, reads and writes in
between, the second reports the clean reason, whatever `this_boot` held at
the first; in particular the reset after an expiry of the armed watchdog
reports the no-ping reason and the reset after that one reports clean. -/
theorem reset_cause_reported_once (m : Machine) (bs : List BusOp) :
    (wdt_y33t_reset m).dev.boot_reason = m.this_boot ∧
    (wdt_y33t_reset (busRun (wdt_y33t_reset m) bs)).dev.boot_reason = Y33T_BOOT_CLEAN ∧
    (m.dev.armed = true →
      (wdt_y33t_reset (y33t_timer_expired m)).dev.boot_reason = Y33T_BOOT_NOPING ∧
      (wdt_y33t_reset (busRun (wdt_y33t_reset (y33t_timer_expired m)) bs)).dev.boot_reason
        = Y33T_BOOT_CLEAN) := by
  have key : ∀ m0 : Machine,
      (wdt_y33t_reset (busRun (wdt_y33t_reset m0) bs)).dev.boot_reason = Y33T_BOOT_CLEAN := by
    intro m0
    have h := busRun_this_boot (wdt_y33t_reset m0) bs
    simp only [wdt_y33t_reset] at h ⊢
    exact h
  refine ⟨rfl, key m, ?_⟩
  intro harm
  refine ⟨?_, key _⟩
  simp [wdt_y33t_reset, y33t_timer_expired, harm, qemu_system_reset_request]

/-- Witness of C5: an armed device whose deadline fires, then a bus session
that arms it again before the second reset. -/
theorem reset_cause_reported_once_witness :
    (wdt_y33t_reset (y33t_timer_expired
      ⟨⟨false, 0, some 3, true, Y33T_BOOT_CLEAN⟩, Y33T_BOOT_CLEAN, []⟩)).dev.boot_reason
      = Y33T_BOOT_NOPING ∧
    (wdt_y33t_reset (busRun (wdt_y33t_reset (y33t_timer_expired
      ⟨⟨false, 0, some 3, true, Y33T_BOOT_CLEAN⟩, Y33T_BOOT_CLEAN, []⟩))
      [.event I2C_START_SEND, .send 10 0, .send 11 13, .recv])).dev.boot_reason
      = Y33T_BOOT_CLEAN :=
  (reset_cause_reported_once ⟨⟨false, 0, some 3, true, Y33T_BOOT_CLEAN⟩, Y33T_BOOT_CLEAN, []⟩
    [.event I2C_START_SEND, .send 10 0, .send 11 13, .recv]).2.2 rfl

/-- Claim C6. In a state reached from a freshly reset device by bus events,
reads and writes only, a device reset leaves the timer unscheduled, `armed`
false and `boot_reason` clean. -/
theorem reset_before_deadline (m : Machine) (bs : List BusOp) :
    (wdt_y33t_reset (busRun (wdt_y33t_reset m) bs)).dev.timer = none ∧
    (wdt_y33t_reset (busRun (wdt_y33t_reset m) bs)).dev.armed = false ∧
    (wdt_y33t_reset (busRun (wdt_y33t_reset m) bs)).dev.boot_reason = Y33T_BOOT_CLEAN := by
  have h := busRun_this_boot (wdt_y33t_reset m) bs
  refine ⟨rfl, rfl, ?_⟩
  simp only [wdt_y33t_reset] at h ⊢
  exact h

/-- Claim C9. From a state with `ptr < 2`, and so from a freshly reset
device, `ptr < 2` holds after any sequence of bus events, writes of any byte,
reads, expiries and device resets. -/
theorem ptr_in_range (m : Machine) (ops : List Op) :
    (m.dev.ptr < 2 → (run m ops).dev.ptr < 2) ∧
    (run (wdt_y33t_reset m) ops).dev.ptr < 2 := by
  refine ⟨run_ptr_lt m ops, run_ptr_lt _ ops ?_⟩
  simp [wdt_y33t_reset]

/-- Witness of C9: a session with an out-of-range address byte. -/
theorem ptr_in_range_witness :
    (run ⟨⟨false, 1, none, false, Y33T_BOOT_CLEAN⟩, Y33T_BOOT_CLEAN, []⟩
      [START_SEND, WRITE 0 200, READ, WRITE 5 13, .fire 4000000000, .reset, READ]).dev.ptr < 2 :=
  (ptr_in_range ⟨⟨false, 1, none, false, Y33T_BOOT_CLEAN⟩, Y33T_BOOT_CLEAN, []⟩
    [START_SEND, WRITE 0 200, READ, WRITE 5 13, .fire 4000000000, .reset, READ]).1 (by decide)

/-! ## Register window laws -/

/-- Claim C11. After the start-of-write and the address byte 0, three reads
in a row return the armed flag, the code of `boot_reason` and the armed flag
again, `ptr` going 0, 1, 0; the armed flag reads 0 after a reset and 1 once
13 has been written to pointer 0. -/
theorem auto_increment_law (m : Machine) (t : Nat → Int) :
    (run m [START_SEND, WRITE (t 0) 0]).dev.ptr = 0 ∧
    readByte (run m [START_SEND, WRITE (t 0) 0]) = (if m.dev.armed then 1 else 0) ∧
    (run m [START_SEND, WRITE (t 0) 0, READ]).dev.ptr = 1 ∧
    readByte (run m [START_SEND, WRITE (t 0) 0, READ]) = m.dev.boot_reason.code ∧
    (run m [START_SEND, WRITE (t 0) 0, READ, READ]).dev.ptr = 0 ∧
    readByte (run m [START_SEND, WRITE (t 0) 0, READ, READ]) = (if m.dev.armed then 1 else 0) ∧
    readByte (run m [.reset, START_SEND, WRITE (t 0) 0]) = 0 ∧
    readByte (run m [.reset, START_SEND, WRITE (t 0) 0, WRITE (t 1) 13,
      START_SEND, WRITE (t 2) 0]) = 1 := by
  obtain ⟨⟨a, p, tm, ar, br⟩, tb, rr⟩ := m
  cases br <;>
    simp [readByte, run, START_SEND, WRITE, READ, step, busStep, wdt_y33t_reset, wdt_y33t_event,
      wdt_y33t_send, wdt_y33t_recv, timer_del, timer_mod, Y33T_MEM_SIZE, y33t_boot_reason.code]

/-- Claim C12. A byte written to pointer 1 does not change what pointer 1
reads: the read after addressing pointer 1 returns the code of `boot_reason`,
and so does the read after addressing pointer 1, writing any byte, and
addressing pointer 1 again. -/
theorem boot_reason_not_bus_writable (m : Machine) (t : Nat → Int) (b : Nat) :
    readByte (run m [START_SEND, WRITE (t 0) 1])
      = readByte (run m [START_SEND, WRITE (t 0) 1, WRITE (t 1) b, START_SEND, WRITE (t 2) 1]) ∧
    readByte (run m [START_SEND, WRITE (t 0) 1]) = m.dev.boot_reason.code ∧
    (run m [START_SEND, WRITE (t 0) 1, WRITE (t 1) b]).dev.boot_reason = m.dev.boot_reason := by
  have hw : ∀ y : Y33TState, y.addr_byte = false → y.ptr = 1 →
      (wdt_y33t_send y (t 1) b).1 = y := fun y ha hp =>
    send_no_command_eq y (t 1) b ha (Or.inl (by omega))
  obtain ⟨⟨a, p, tm, ar, br⟩, tb, rr⟩ := m
  have h1 := hw ⟨false, 1, tm, ar, br⟩ rfl rfl
  cases br <;>
    simp [readByte, run, START_SEND, WRITE, READ, step, busStep, wdt_y33t_event,
      wdt_y33t_recv, Y33T_MEM_SIZE, y33t_boot_reason.code, send_addressing_eq, h1]

/-- Claim C13. None of `wdt_y33t_event`, `wdt_y33t_send`, `wdt_y33t_recv` and
`y33t_timer_expired` changes `boot_reason`, whatever the event, the byte and
the clock value. -/
theorem boot_reason_changes_only_at_reset (m : Machine) (e : i2c_event) (now : Int)
    (data : Nat) :
    (wdt_y33t_event m.dev e).1.boot_reason = m.dev.boot_reason ∧
    (wdt_y33t_send m.dev now data).1.boot_reason = m.dev.boot_reason ∧
    (wdt_y33t_recv m.dev).1.boot_reason = m.dev.boot_reason ∧
    (y33t_timer_expired m).dev.boot_reason = m.dev.boot_reason ∧
    (timer_fire m now).dev.boot_reason = m.dev.boot_reason := by
  refine ⟨?_, ?_, rfl, ?_, ?_⟩
  · simp only [wdt_y33t_event]
    split <;> rfl
  · cases haddr : m.dev.addr_byte
    · by_cases hc : m.dev.ptr = 0 ∧ data = 13
      · obtain ⟨hp, hd⟩ := hc
        subst hd
        rw [send_command_eq m.dev now haddr hp]
      · rw [send_no_command_eq m.dev now data haddr (by omega)]
    · rw [send_addressing_eq m.dev now data haddr]
  · simp only [y33t_timer_expired, qemu_system_reset_request]
    split <;> rfl
  · simp only [timer_fire, y33t_timer_expired, qemu_system_reset_request]
    split
    · split
      · split <;> rfl
      · rfl
    · rfl

/-- Claim C15. With `I2C_START_SEND`, `wdt_y33t_event` sets `addr_byte` and
changes nothing else; with any other event the state is as before. -/
theorem wdt_y33t_event_spec (m : Machine) (e : i2c_event) :
    (wdt_y33t_event m.dev I2C_START_SEND).1 = { m.dev with addr_byte := true } ∧
    step m START_SEND = { m with dev := { m.dev with addr_byte := true } } ∧
    (e ≠ I2C_START_SEND →
      (wdt_y33t_event m.dev e).1 = m.dev ∧ step m (.bus (.event e)) = m) := by
  refine ⟨rfl, rfl, ?_⟩
  intro he
  have h : (wdt_y33t_event m.dev e).1 = m.dev := by
    simp [wdt_y33t_event, he]
  refine ⟨h, ?_⟩
  simp only [step, busStep, h]

/-- Witness of C15: a bus stop seen by a device in its addressing phase. -/
theorem wdt_y33t_event_spec_witness :
    (wdt_y33t_event ⟨true, 1, some 8, true, Y33T_BOOT_NOPING⟩ I2C_FINISH).1
      = ⟨true, 1, some 8, true, Y33T_BOOT_NOPING⟩ ∧
    step ⟨⟨true, 1, some 8, true, Y33T_BOOT_NOPING⟩, Y33T_BOOT_CLEAN, []⟩
        (.bus (.event I2C_FINISH))
      = ⟨⟨true, 1, some 8, true, Y33T_BOOT_NOPING⟩, Y33T_BOOT_CLEAN, []⟩ :=
  (wdt_y33t_event_spec ⟨⟨true, 1, some 8, true, Y33T_BOOT_NOPING⟩, Y33T_BOOT_CLEAN, []⟩
    I2C_FINISH).2.2 (by decide)

/-- Claim C16. The status returned by `wdt_y33t_event` and by `wdt_y33t_send`
is 0 for every device state, event, clock value and byte. -/
theorem no_error_signalled (y33t : Y33TState) (e : i2c_event) (now : Int) (data : Nat) :
    (wdt_y33t_event y33t e).2 = 0 ∧ (wdt_y33t_send y33t now data).2 = 0 := by
  refine ⟨rfl, ?_⟩
  simp only [wdt_y33t_send]
  split <;> rfl

/-- Claim C19. An address byte of 2 or more selects pointer 0: the state is
the one the address byte 0 gives, the read that follows returns the armed flag
and a write of 13 that follows arms the watchdog as it does after the address
byte 0. -/
theorem out_of_range_pointer_aliases_control (m : Machine) (t : Nat → Int) (p : Nat)
    (hp : 2 ≤ p) :
    run m [START_SEND, WRITE (t 0) p] = run m [START_SEND, WRITE (t 0) 0] ∧
    (run m [START_SEND, WRITE (t 0) p]).dev.ptr = 0 ∧
    readByte (run m [START_SEND, WRITE (t 0) p]) = (if m.dev.armed then 1 else 0) ∧
    readByte (run m [START_SEND, WRITE (t 0) p]) ≠ 0xff ∧
    run m [START_SEND, WRITE (t 0) p, WRITE (t 1) 13]
      = run m [START_SEND, WRITE (t 0) 0, WRITE (t 1) 13] ∧
    (run m [START_SEND, WRITE (t 0) p, WRITE (t 1) 13]).dev.armed = true ∧
    (run m [START_SEND, WRITE (t 0) p, WRITE (t 1) 13]).dev.timer
      = some (wrap_int64 (t 1 + 3 * NANOSECONDS_PER_SECOND)) := by
  have hlt : ¬ p < 2 := by omega
  obtain ⟨⟨a, q, tm, ar, br⟩, tb, rr⟩ := m
  cases ar <;>
    simp [readByte, run, START_SEND, WRITE, step, busStep, wdt_y33t_event, wdt_y33t_send,
      wdt_y33t_recv, timer_mod, Y33T_MEM_SIZE, hlt]

/-- Witness of C19: the address byte 200 on an unarmed device. -/
theorem out_of_range_pointer_aliases_control_witness :
    readByte (run ⟨⟨false, 1, none, false, Y33T_BOOT_OTHER⟩, Y33T_BOOT_CLEAN, []⟩
      [START_SEND, WRITE 0 200]) = 0 ∧
    (run ⟨⟨false, 1, none, false, Y33T_BOOT_OTHER⟩, Y33T_BOOT_CLEAN, []⟩
      [START_SEND, WRITE 0 200, WRITE 50 13]).dev.armed = true :=
  have h := out_of_range_pointer_aliases_control
    ⟨⟨false, 1, none, false, Y33T_BOOT_OTHER⟩, Y33T_BOOT_CLEAN, []⟩ (fun n => 50 * n) 200
    (by decide)
  ⟨h.2.2.1, h.2.2.2.2.2.1⟩

/-! ## Durable state -/

/-- Claim C14. The description `vmstate_y33t` declares `addr_byte`, `ptr`,
the timer and `armed`; it declares neither `this_boot` nor `boot_reason`, so a
device saved with the no-ping reason and restored into a freshly reset device
comes back with the clean reason, and pointer 1 reads 0 where it read 1. -/
theorem vmstate_y33t_omits_boot_reason :
    vmstate_y33t = [.addr_byte, .ptr, .timer, .armed] ∧
    StateCell.this_boot ∉ vmstate_y33t ∧
    StateCell.boot_reason ∉ vmstate_y33t ∧
    savedAfterWatchdogReset.dev.boot_reason = Y33T_BOOT_NOPING ∧
    (vmstate_restore vmstate_y33t savedAfterWatchdogReset freshTarget).dev.boot_reason
      = Y33T_BOOT_CLEAN ∧
    readByte savedAfterWatchdogReset = 1 ∧
    readByte (vmstate_restore vmstate_y33t savedAfterWatchdogReset freshTarget) = 0 := by
  decide

/-! ## Invariants of the reachable states -/

/-- Counterexample to C17: a freshly reset device is armed at time 0 and the
deadline is delivered at three seconds; `armed` is then true with no deadline
scheduled. -/
theorem armed_without_deadline_after_expiry :
    (run (wdt_y33t_reset ⟨⟨false, 0, none, false, Y33T_BOOT_CLEAN⟩, Y33T_BOOT_CLEAN, []⟩)
      [START_SEND, WRITE 0 0, WRITE 0 13, .fire 3000000000]).dev.armed = true ∧
    (run (wdt_y33t_reset ⟨⟨false, 0, none, false, Y33T_BOOT_CLEAN⟩, Y33T_BOOT_CLEAN, []⟩)
      [START_SEND, WRITE 0 0, WRITE 0 13, .fire 3000000000]).dev.timer = none ∧
    ¬ ((run (wdt_y33t_reset ⟨⟨false, 0, none, false, Y33T_BOOT_CLEAN⟩, Y33T_BOOT_CLEAN, []⟩)
        [START_SEND, WRITE 0 0, WRITE 0 13, .fire 3000000000]).dev.armed = true ↔
      (run (wdt_y33t_reset ⟨⟨false, 0, none, false, Y33T_BOOT_CLEAN⟩, Y33T_BOOT_CLEAN, []⟩)
        [START_SEND, WRITE 0 0, WRITE 0 13, .fire 3000000000]).dev.timer.isSome = true) := by
  decide

/-- Claim C17, as amended. In every state reached from a freshly reset device
by bus events, writes, reads, expiry callbacks, timer deliveries and device
resets, `armed` holds exactly when a deadline is scheduled, except in the
states where the scheduled deadline has been delivered and neither a device
reset nor an arming write has followed: there the device is still armed and
nothing is scheduled. -/
theorem armed_deadline_invariant (m : Machine) (ops : List Op) :
    (expiredWindow (wdt_y33t_reset m) false ops = false →
      ((run (wdt_y33t_reset m) ops).dev.armed = true ↔
        (run (wdt_y33t_reset m) ops).dev.timer.isSome = true)) ∧
    (expiredWindow (wdt_y33t_reset m) false ops = true →
      (run (wdt_y33t_reset m) ops).dev.armed = true ∧
        (run (wdt_y33t_reset m) ops).dev.timer = none) := by
  apply run_armed_timer
  · intro _
    simp [wdt_y33t_reset, timer_del]
  · intro h
    exact absurd h (by decide)

/-- Witness of C17 as amended: an armed device, a delivery, a reset, and a
second arming with a delivery attempted before its deadline. -/
theorem armed_deadline_invariant_witness :
    ((run (wdt_y33t_reset ⟨⟨true, 1, none, true, Y33T_BOOT_CLEAN⟩, Y33T_BOOT_CLEAN, []⟩)
        [START_SEND, WRITE 0 0, WRITE 0 13, .fire 3000000000, .reset, START_SEND, WRITE 7 0,
          WRITE 8 13, .fire 9]).dev.armed = true ↔
      (run (wdt_y33t_reset ⟨⟨true, 1, none, true, Y33T_BOOT_CLEAN⟩, Y33T_BOOT_CLEAN, []⟩)
        [START_SEND, WRITE 0 0, WRITE 0 13, .fire 3000000000, .reset, START_SEND, WRITE 7 0,
          WRITE 8 13, .fire 9]).dev.timer.isSome = true) :=
  (armed_deadline_invariant ⟨⟨true, 1, none, true, Y33T_BOOT_CLEAN⟩, Y33T_BOOT_CLEAN, []⟩
    [START_SEND, WRITE 0 0, WRITE 0 13, .fire 3000000000, .reset, START_SEND, WRITE 7 0,
      WRITE 8 13, .fire 9]).1 (by decide)

/-- Claim C18. Starting with `this_boot` clean, after any sequence of bus
events, writes, reads, expiries and device resets `this_boot` is clean, or it
holds the no-ping reason and some expiry in the sequence issued a guest-reset
request with no device reset after it. -/
theorem pending_cell_invariant (m : Machine) (ops : List Op)
    (hclean : m.this_boot = Y33T_BOOT_CLEAN) :
    (run m ops).this_boot = Y33T_BOOT_CLEAN ∨
    ((run m ops).this_boot = Y33T_BOOT_NOPING ∧
      ∃ pre op post, ops = pre ++ op :: post ∧
        (op = .expired ∨ ∃ now, op = .fire now) ∧
        (step (run m pre) op).reset_requests
          = SHUTDOWN_CAUSE_GUEST_RESET :: (run m pre).reset_requests ∧
        Op.reset ∉ post) := by
  induction ops using List.reverseRecOn with
  | nil => exact Or.inl hclean
  | append_singleton l a ih =>
    rw [run_append_singleton]
    rcases step_this_boot_cases (run m l) a with ⟨hne, hsame⟩ | hc | ⟨hkind, hnp, hreq⟩
    · rw [hsame]
      rcases ih with h | ⟨h, pre, op, post, hl, hop, hrq, hpost⟩
      · exact Or.inl h
      · refine Or.inr ⟨h, pre, op, post ++ [a], ?_, hop, hrq, ?_⟩
        · simp [hl]
        · intro hmem
          rcases List.mem_append.1 hmem with hm | hm
          · exact hpost hm
          · exact hne (List.mem_singleton.1 hm).symm
    · exact Or.inl hc
    · exact Or.inr ⟨hnp, l, a, [], rfl, hkind, hreq, by simp⟩

/-- Witness of C18: the watchdog is armed and its deadline is delivered; the
cell then holds the no-ping reason, inside the window. -/
theorem pending_cell_invariant_witness :
    (run ⟨⟨false, 0, none, false, Y33T_BOOT_CLEAN⟩, Y33T_BOOT_CLEAN, []⟩
      [WRITE 0 13, .fire 3000000000, READ]).this_boot = Y33T_BOOT_CLEAN ∨
    ((run ⟨⟨false, 0, none, false, Y33T_BOOT_CLEAN⟩, Y33T_BOOT_CLEAN, []⟩
      [WRITE 0 13, .fire 3000000000, READ]).this_boot = Y33T_BOOT_NOPING ∧
      ∃ pre op post, [WRITE 0 13, .fire 3000000000, READ] = pre ++ op :: post ∧
        (op = .expired ∨ ∃ now, op = .fire now) ∧
        (step (run ⟨⟨false, 0, none, false, Y33T_BOOT_CLEAN⟩, Y33T_BOOT_CLEAN, []⟩ pre)
            op).reset_requests
          = SHUTDOWN_CAUSE_GUEST_RESET ::
            (run ⟨⟨false, 0, none, false, Y33T_BOOT_CLEAN⟩, Y33T_BOOT_CLEAN, []⟩
              pre).reset_requests ∧
        Op.reset ∉ post) :=
  pending_cell_invariant ⟨⟨false, 0, none, false, Y33T_BOOT_CLEAN⟩, Y33T_BOOT_CLEAN, []⟩
    [WRITE 0 13, .fire 3000000000, READ] rfl

/-- Claim C20. In every state reached from a freshly reset device by bus
events, writes, reads, expiries and device resets, `wdt_y33t_recv` is in its
case 0 and returns the armed flag, or in its case 1 and returns the code of
`boot_reason`; and when `this_boot` was not `Y33T_BOOT_OTHER` at the reset, the
byte returned is never 0xFF. -/
theorem recv_default_case_unreachable (m : Machine) (ops : List Op) :
    (((run (wdt_y33t_reset m) ops).dev.ptr = 0 ∧
        readByte (run (wdt_y33t_reset m) ops)
          = (if (run (wdt_y33t_reset m) ops).dev.armed then 1 else 0)) ∨
      ((run (wdt_y33t_reset m) ops).dev.ptr = 1 ∧
        readByte (run (wdt_y33t_reset m) ops)
          = (run (wdt_y33t_reset m) ops).dev.boot_reason.code)) ∧
    (m.this_boot ≠ Y33T_BOOT_OTHER → readByte (run (wdt_y33t_reset m) ops) ≠ 0xff) := by
  have hlt : (run (wdt_y33t_reset m) ops).dev.ptr < 2 :=
    run_ptr_lt _ ops (by simp [wdt_y33t_reset])
  have hcode : ∀ br : y33t_boot_reason, br.code % 256 = br.code := by
    intro br
    cases br <;> rfl
  have hcases : ∀ y : Y33TState, y.ptr < 2 →
      (y.ptr = 0 ∧ (wdt_y33t_recv y).2 = (if y.armed then 1 else 0)) ∨
      (y.ptr = 1 ∧ (wdt_y33t_recv y).2 = y.boot_reason.code) := by
    intro y hy
    obtain ⟨a, p, tm, ar, br⟩ := y
    simp only at hy
    match p, hy with
    | 0, _ => exact Or.inl ⟨rfl, rfl⟩
    | 1, _ => exact Or.inr ⟨rfl, hcode br⟩
  refine ⟨hcases _ hlt, ?_⟩
  intro hother
  have hinv := run_not_other (wdt_y33t_reset m) ops (by simp [wdt_y33t_reset])
    (by simpa [wdt_y33t_reset] using hother)
  rcases hcases _ hlt with ⟨_, hr⟩ | ⟨_, hr⟩
  · simp only [readByte]
    rw [hr]
    split <;> decide
  · simp only [readByte]
    rw [hr]
    have hb := hinv.2
    revert hb
    cases (run (wdt_y33t_reset m) ops).dev.boot_reason <;> simp [y33t_boot_reason.code]

/-- Witness of C20: a session with an out-of-range address byte, an arming
write and a delivery, from a reset with the overheat reason pending. -/
theorem recv_default_case_unreachable_witness :
    readByte (run (wdt_y33t_reset
      ⟨⟨true, 7, none, true, Y33T_BOOT_OTHER⟩, Y33T_BOOT_OVERHEAT, []⟩)
      [START_SEND, WRITE 0 9, WRITE 1 13, READ, .fire 4000000000, READ]) ≠ 0xff :=
  (recv_default_case_unreachable
    ⟨⟨true, 7, none, true, Y33T_BOOT_OTHER⟩, Y33T_BOOT_OVERHEAT, []⟩
    [START_SEND, WRITE 0 9, WRITE 1 13, READ, .fire 4000000000, READ]).2 (by decide)

end Y33T
